import Mathlib

/-
Verification of the component resource mapper of terraform-provider-instatus
(instatus/component_resource.go): the plan-to-request builders, the
response-to-model mappings of Create/Read/Update, the diagnostics produced on
client errors, and the composite import-identifier parser of ImportState.

Go nil pointers (`*string`, `*bool`, terraform null/unknown attributes) are
modelled as `Option`; the external API client call of each lifecycle operation
is abstracted as its result, an `Except` value.
-/

namespace Instatus

/-- componentResourceModel: the resource schema data (`id`, `name`, `page_id`,
`description`, `show_uptime`, `grouped`, `group_name`, `group_id`); `none`
models a null/unknown attribute (a nil pointer under `ValueStringPointer` /
`ValueBoolPointer`). -/
structure componentResourceModel where
  id : Option String
  name : Option String
  pageId : Option String
  description : Option String
  showUptime : Option Bool
  grouped : Option Bool
  groupName : Option String
  groupId : Option String
  deriving DecidableEq

/-- The group object inside the client's component response
(`component.Group`, with `Name` and `Id` string pointers). -/
structure Group where
  name : Option String
  id : Option String
  deriving DecidableEq

/-- is.Component: the request payload the resource sends to the client on
create and update (`Name`, `Description`, `ShowUptime`, `Grouped`, `Group`,
`GroupId`). -/
structure Component where
  name : Option String
  description : Option String
  showUptime : Option Bool
  grouped : Option Bool
  group : Option String
  groupId : Option String
  deriving DecidableEq

/-- The component value returned by the client. The resource reads `ID`,
`Name`, `Description`, `ShowUptime`, `Group.Name`, `Group.Id`; a `Grouped`
flag is carried in the response but never read by the refresh logic. -/
structure ComponentResponse where
  id : Option String
  name : Option String
  description : Option String
  showUptime : Option Bool
  grouped : Option Bool
  group : Group
  deriving DecidableEq

/-- The request built in `Create` (component_resource.go, lines 117-124):
both `Group` and `GroupId` are populated from the plan's `group_id`. -/
def buildCreateRequest (plan : componentResourceModel) : Component :=
  { name := plan.name,
    description := plan.description,
    showUptime := plan.showUptime,
    grouped := plan.grouped,
    group := plan.groupId,
    groupId := plan.groupId }

/-- The response mapping in `Create` (lines 137-140): overwrite `id`,
`description`, `group_name`, `group_id` from the response; every other plan
field is kept. -/
def applyCreateResponse (plan : componentResourceModel)
    (component : ComponentResponse) : componentResourceModel :=
  { plan with
    id := component.id,
    description := component.description,
    groupName := component.group.name,
    groupId := component.group.id }

/-- The refresh in `Read` (lines 170-175): overwrite `name`, `description`,
`show_uptime`, `group_name`, `group_id` from the response; `grouped` is
recomputed as `component.Group.Name != nil`; `page_id` and `id` are kept from
the prior state. -/
def refreshFromRead (state : componentResourceModel)
    (component : ComponentResponse) : componentResourceModel :=
  { state with
    name := component.name,
    description := component.description,
    showUptime := component.showUptime,
    grouped := some component.group.name.isSome,
    groupName := component.group.name,
    groupId := component.group.id }

/-- The request built in `Update` (lines 196-203): `Group` is populated from
the plan's `group_name`, `GroupId` from `group_id`. -/
def buildUpdateRequest (plan : componentResourceModel) : Component :=
  { name := plan.name,
    description := plan.description,
    showUptime := plan.showUptime,
    grouped := plan.grouped,
    group := plan.groupName,
    groupId := plan.groupId }

/-- The response mapping in `Update` (lines 216-219): the same four fields as
the create mapping. -/
def applyUpdateResponse (plan : componentResourceModel)
    (component : ComponentResponse) : componentResourceModel :=
  { plan with
    id := component.id,
    groupName := component.group.name,
    description := component.description,
    groupId := component.group.id }

/-- The schema default of the `grouped` attribute
(`booldefault.StaticBool(false)`, line 93). -/
def groupedDefault : Bool := false

/-- The effective `grouped` value of a plan: the configured value when set,
otherwise the schema default applied by the framework. -/
def effectiveGrouped (config : Option Bool) : Bool :=
  config.getD groupedDefault

/-- A diagnostic as produced by `resp.Diagnostics.AddError`: summary and
detail. -/
abbrev Diag := String × String

/-- One `Create` invocation after plan decoding (lines 117-148), with the
client call abstracted as its result: on a client error a diagnostic is added
and the operation returns without writing state; on success the mapped plan
is written. -/
def createOp (plan : componentResourceModel)
    (clientResult : Except String ComponentResponse) :
    List Diag × Option componentResourceModel :=
  match clientResult with
  | .error err =>
      ([("Error creating component",
         "Could not create component, unexpected error: " ++ err)], none)
  | .ok component => ([], some (applyCreateResponse plan component))

/-- One `Read` invocation after state decoding (lines 161-182): on a client
error a diagnostic naming the component id is added and no state is written;
on success the refreshed state is written. -/
def readOp (state : componentResourceModel)
    (clientResult : Except String ComponentResponse) :
    List Diag × Option componentResourceModel :=
  match clientResult with
  | .error err =>
      ([("Error Reading Instatus Component",
         "Could not read Instatus component ID " ++ state.id.getD "" ++ ": "
           ++ err)], none)
  | .ok component => ([], some (refreshFromRead state component))

/-- One `Update` invocation after plan decoding (lines 196-226). -/
def updateOp (plan : componentResourceModel)
    (clientResult : Except String ComponentResponse) :
    List Diag × Option componentResourceModel :=
  match clientResult with
  | .error err =>
      ([("Error Updating Instatus Component",
         "Could not update component, unexpected error: " ++ err)], none)
  | .ok component => ([], some (applyUpdateResponse plan component))

/-- One `Delete` invocation after state decoding (lines 240-247): `Delete`
never writes state; on a client error it adds a diagnostic. -/
def deleteOp (clientResult : Except String Unit) :
    List Diag × Option componentResourceModel :=
  match clientResult with
  | .error err =>
      ([("Error Deleting Instatus Component",
         "Could not delete component, unexpected error: " ++ err)], none)
  | .ok _ => ([], none)

/-- Helper for `goSplit`: walk the character list, holding the current
(reversed) segment in the accumulator; a separator closes the segment. -/
def splitAux (sep : Char) : List Char → List Char → List (List Char)
  | [], acc => [acc.reverse]
  | c :: cs, acc =>
    if c = sep then acc.reverse :: splitAux sep cs []
    else splitAux sep cs (c :: acc)

/-- Go's strings.Split(s, sep) for a single-character separator: the list of
segments of `s` between occurrences of `sep` (never empty; `[""]` for the
empty string). -/
def goSplit (sep : Char) (s : String) : List String :=
  (splitAux sep s.data []).map String.mk

/-- The two state attributes written by `ImportState`: `page_id` and `id`. -/
structure ImportedState where
  page_id : Option String
  id : Option String
  deriving DecidableEq

/-- `ImportState` (lines 250-264): split the raw identifier on every '/';
unless that yields exactly two non-empty parts, add a diagnostic echoing the
raw input and write nothing. Otherwise the passthrough first writes the full
raw identifier into `id`, then `page_id` and `id` are set to the two parts in
order. -/
def ImportState (reqID : String) (st : ImportedState) :
    List Diag × ImportedState :=
  let idParts := goSplit '/' reqID
  if idParts.length ≠ 2 ∨ idParts.getD 0 "" = "" ∨ idParts.getD 1 "" = "" then
    ([("Invalid import identifier",
       "Import identifier must be in the format 'PageId/id'. Got: " ++ reqID)],
     st)
  else
    let st1 : ImportedState := { st with id := some reqID }
    let st2 : ImportedState := { st1 with page_id := some (idParts.getD 0 "") }
    let st3 : ImportedState := { st2 with id := some (idParts.getD 1 "") }
    ([], st3)

/-- Rejoin a list of segments with the separator: left inverse of the
splitting direction of `splitAux`. -/
def joinSep (sep : Char) : List (List Char) → List Char
  | [] => []
  | [x] => x
  | x :: y :: rest => x ++ sep :: joinSep sep (y :: rest)

theorem splitAux_ne_nil (sep : Char) :
    ∀ (l acc : List Char), splitAux sep l acc ≠ [] := by
  intro l
  induction l with
  | nil => intro acc; simp [splitAux]
  | cons c cs ih =>
    intro acc
    simp only [splitAux]
    split
    · simp
    · exact ih (c :: acc)

theorem joinSep_cons (sep : Char) (x : List Char) (xs : List (List Char))
    (h : xs ≠ []) : joinSep sep (x :: xs) = x ++ sep :: joinSep sep xs := by
  cases xs with
  | nil => exact absurd rfl h
  | cons y rest => rfl

theorem joinSep_splitAux (sep : Char) :
    ∀ (l acc : List Char),
      joinSep sep (splitAux sep l acc) = acc.reverse ++ l := by
  intro l
  induction l with
  | nil => intro acc; simp [splitAux, joinSep]
  | cons c cs ih =>
    intro acc
    simp only [splitAux]
    by_cases hc : c = sep
    · rw [if_pos hc, joinSep_cons sep _ _ (splitAux_ne_nil sep cs []), ih []]
      simp [hc]
    · rw [if_neg hc, ih (c :: acc)]
      simp

theorem data_append (s t : String) : (s ++ t).data = s.data ++ t.data := by
  cases s; cases t; rfl

/-- Two-segment split, at the character level: the segments rejoined around
one separator give back the original characters. -/
theorem goSplit_pair_concat (sep : Char) (raw a b : String)
    (h : goSplit sep raw = [a, b]) :
    a.data ++ sep :: b.data = raw.data := by
  unfold goSplit at h
  have hj := joinSep_splitAux sep raw.data []
  cases hs : splitAux sep raw.data [] with
  | nil => rw [hs] at h; simp at h
  | cons x xs =>
    cases xs with
    | nil => rw [hs] at h; simp at h
    | cons y rest =>
      cases rest with
      | cons z rest2 => rw [hs] at h; simp at h
      | nil =>
        rw [hs] at h
        simp only [List.map_cons, List.map_nil, List.cons.injEq,
          and_true] at h
        obtain ⟨ha, hb⟩ := h
        rw [hs] at hj
        simp only [joinSep, List.reverse_nil, List.nil_append] at hj
        have hx : x = a.data := congrArg String.data ha
        have hy : y = b.data := congrArg String.data hb
        rw [hx, hy] at hj
        exact hj

/-- Two-segment split, at the string level: `a ++ "/" ++ b` reconstructs the
original string. -/
theorem goSplit_pair_append (raw a b : String)
    (h : goSplit '/' raw = [a, b]) : a ++ "/" ++ b = raw := by
  have h2 := goSplit_pair_concat '/' raw a b h
  apply String.ext
  rw [data_append, data_append]
  have hs : String.data "/" = ['/'] := rfl
  rw [hs, ← h2]
  simp

/-- C1: for every import identifier that splits on '/' into exactly two
non-empty segments, `ImportState` succeeds with no diagnostic and writes the
first segment into `page_id` and the second into `id`. -/
theorem c1_import_valid (raw pid cid : String) (st : ImportedState)
    (h : goSplit '/' raw = [pid, cid]) (hp : pid ≠ "") (hc : cid ≠ "") :
    ImportState raw st = ([], ⟨some pid, some cid⟩) := by
  have hcond : ¬(([pid, cid] : List String).length ≠ 2 ∨
      ([pid, cid] : List String).getD 0 "" = "" ∨
      ([pid, cid] : List String).getD 1 "" = "") := by
    simp [hp, hc]
  simp only [ImportState, h]
  rw [if_neg hcond]
  rfl

/-- Witness for C1 at the concrete import identifier "pg_1/cmp_42". -/
theorem c1_import_valid_witness :
    ImportState "pg_1/cmp_42" ⟨none, none⟩ =
      ([], ⟨some "pg_1", some "cmp_42"⟩) :=
  c1_import_valid "pg_1/cmp_42" "pg_1" "cmp_42" ⟨none, none⟩ (by decide)
    (by decide) (by decide)

/-- C2: whenever splitting the import identifier on '/' yields a segment
count other than two or an empty first or second segment, `ImportState` adds
the invalid-identifier diagnostic, whose detail ends with the original raw
input, and writes no state attribute. -/
theorem c2_import_invalid (raw : String) (st : ImportedState)
    (h : (goSplit '/' raw).length ≠ 2 ∨ (goSplit '/' raw).getD 0 "" = "" ∨
      (goSplit '/' raw).getD 1 "" = "") :
    ImportState raw st =
      ([("Invalid import identifier",
         "Import identifier must be in the format 'PageId/id'. Got: " ++ raw)],
       st) := by
  simp only [ImportState]
  rw [if_pos h]

/-- Witness for C2 at the concrete import identifier "cmp_42", which has a
single segment. -/
theorem c2_import_invalid_witness :
    (goSplit '/' "cmp_42").length ≠ 2 ∧
    ImportState "cmp_42" ⟨none, none⟩ =
      ([("Invalid import identifier",
         "Import identifier must be in the format 'PageId/id'. Got: "
           ++ "cmp_42")],
       ⟨none, none⟩) :=
  ⟨by decide, c2_import_invalid "cmp_42" ⟨none, none⟩ (Or.inl (by decide))⟩

/-- C10: when `ImportState` accepts an identifier, the final `id` attribute
is the second '/'-segment and not the full raw identifier (the passthrough
write of the raw identifier has been overwritten), `page_id` is the first
segment, and concatenating `page_id`, '/', `id` reconstructs the raw
identifier exactly. -/
theorem c10_import_roundtrip (raw : String) (st st' : ImportedState)
    (h : ImportState raw st = ([], st')) :
    ∃ pid cid : String,
      goSplit '/' raw = [pid, cid] ∧ st'.page_id = some pid ∧
      st'.id = some cid ∧ st'.id ≠ some raw ∧ pid ++ "/" ++ cid = raw := by
  simp only [ImportState] at h
  by_cases hc : (goSplit '/' raw).length ≠ 2 ∨
      (goSplit '/' raw).getD 0 "" = "" ∨ (goSplit '/' raw).getD 1 "" = ""
  · rw [if_pos hc] at h
    simp at h
  · rw [if_neg hc] at h
    push_neg at hc
    obtain ⟨hlen, h0, h1⟩ := hc
    cases hsp : goSplit '/' raw with
    | nil => rw [hsp] at hlen; simp at hlen
    | cons a rest =>
      cases rest with
      | nil => rw [hsp] at hlen; simp at hlen
      | cons b rest2 =>
        cases rest2 with
        | cons z rest3 => rw [hsp] at hlen; simp at hlen
        | nil =>
          rw [hsp] at h
          have hst : st' = ⟨some a, some b⟩ := by
            have h2 := congrArg Prod.snd h
            simpa using h2.symm
          have hcat : a ++ "/" ++ b = raw := goSplit_pair_append raw a b hsp
          have hlen2 : a.length + (b.length + 1) = raw.length := by
            have h3 := congrArg (fun l => l.length) (congrArg String.data hcat)
            simpa [data_append] using h3
          have hid_ne : some b ≠ some raw := by
            intro hb
            injection hb with hb
            rw [hb] at hlen2
            omega
          exact ⟨a, b, rfl, by rw [hst], by rw [hst], by rw [hst]; exact hid_ne,
            hcat⟩

/-- Witness for C10 at the concrete import identifier "pg_1/cmp_42". -/
theorem c10_import_roundtrip_witness :
    ∃ pid cid : String,
      goSplit '/' "pg_1/cmp_42" = [pid, cid] ∧
      (⟨some "pg_1", some "cmp_42"⟩ : ImportedState).page_id = some pid ∧
      (⟨some "pg_1", some "cmp_42"⟩ : ImportedState).id = some cid ∧
      (⟨some "pg_1", some "cmp_42"⟩ : ImportedState).id ≠ some "pg_1/cmp_42" ∧
      pid ++ "/" ++ cid = "pg_1/cmp_42" :=
  c10_import_roundtrip "pg_1/cmp_42" ⟨none, none⟩
    ⟨some "pg_1", some "cmp_42"⟩ (by decide)

/-- C3: the create request's `group` and `groupId` are both populated from
the plan's `group_id`, while the update request's `group` is populated from
the plan's `group_name`; the two paths draw `group` from different source
fields, witnessed by a plan on which they disagree. -/
theorem c3_group_asymmetry :
    (∀ plan : componentResourceModel,
      (buildCreateRequest plan).group = plan.groupId ∧
      (buildCreateRequest plan).groupId = plan.groupId ∧
      (buildUpdateRequest plan).group = plan.groupName) ∧
    ∃ plan : componentResourceModel,
      (buildCreateRequest plan).group ≠ (buildUpdateRequest plan).group := by
  refine ⟨fun plan => ⟨rfl, rfl, rfl⟩,
    ⟨⟨none, none, none, none, none, none, none, some "grp_9"⟩, ?_⟩⟩
  decide

/-- C4: the read refresh sets `grouped` to the known boolean that is true
exactly when the response's group name is present; the value is fully
determined by `group.name` presence, so any `grouped` flag carried in the
response is ignored. -/
theorem c4_grouped_derived (state : componentResourceModel)
    (component : ComponentResponse) :
    (refreshFromRead state component).grouped =
      some component.group.name.isSome :=
  rfl

/-- C5: frame conditions of the response-apply steps: the read refresh keeps
`page_id` and `id` exactly as in the prior state, and the create and update
mappings keep `name`, `show_uptime`, `grouped` and `page_id` at the plan's
values. -/
theorem c5_frame (m : componentResourceModel) (r : ComponentResponse) :
    (refreshFromRead m r).pageId = m.pageId ∧
    (refreshFromRead m r).id = m.id ∧
    (applyCreateResponse m r).name = m.name ∧
    (applyCreateResponse m r).showUptime = m.showUptime ∧
    (applyCreateResponse m r).grouped = m.grouped ∧
    (applyCreateResponse m r).pageId = m.pageId ∧
    (applyUpdateResponse m r).name = m.name ∧
    (applyUpdateResponse m r).showUptime = m.showUptime ∧
    (applyUpdateResponse m r).grouped = m.grouped ∧
    (applyUpdateResponse m r).pageId = m.pageId :=
  ⟨rfl, rfl, rfl, rfl, rfl, rfl, rfl, rfl, rfl, rfl⟩

/-- A client response with every optional field absent. -/
def emptyResponse : ComponentResponse :=
  { id := none, name := none, description := none, showUptime := none,
    grouped := none, group := { name := none, id := none } }

/-- A plan with every attribute null. -/
def emptyModel : componentResourceModel :=
  { id := none, name := none, pageId := none, description := none,
    showUptime := none, grouped := none, groupName := none, groupId := none }

/-- C6 counterexample: a create response accepted with no client error whose
applied model carries a null `id` — the mapping copies the response's absent
id rather than guaranteeing a populated one. -/
theorem c6_counterexample :
    createOp emptyModel (Except.ok emptyResponse) =
      ([], some (applyCreateResponse emptyModel emptyResponse)) ∧
    (applyCreateResponse emptyModel emptyResponse).id = none :=
  ⟨rfl, rfl⟩

/-- C6 amended: applying an accepted create response never errors and maps
each of `id`, `description`, `group_name`, `group_id` to the corresponding
response field, so an omitted field becomes the null sentinel and `id` is
populated exactly when the response carries one. -/
theorem c6_amended (plan : componentResourceModel) (r : ComponentResponse) :
    createOp plan (Except.ok r) = ([], some (applyCreateResponse plan r)) ∧
    (applyCreateResponse plan r).id = r.id ∧
    (applyCreateResponse plan r).description = r.description ∧
    (applyCreateResponse plan r).groupName = r.group.name ∧
    (applyCreateResponse plan r).groupId = r.group.id :=
  ⟨rfl, rfl, rfl, rfl, rfl⟩

/-- C7: `grouped` takes the schema default false when not set, and neither
the create nor the update response mapping ever changes `grouped` — in
particular never from false to true. -/
theorem c7_grouped_default (m : componentResourceModel)
    (r : ComponentResponse) :
    effectiveGrouped none = false ∧
    (applyCreateResponse m r).grouped = m.grouped ∧
    (applyUpdateResponse m r).grouped = m.grouped :=
  ⟨rfl, rfl, rfl⟩

/-- C8: applying the create response and refreshing from a read of the same
underlying remote component yield identical `group_name`, `group_id` and
`description`, whatever models the two mappings start from. -/
theorem c8_roundtrip (m n : componentResourceModel) (r : ComponentResponse) :
    (applyCreateResponse m r).groupName = (refreshFromRead n r).groupName ∧
    (applyCreateResponse m r).groupId = (refreshFromRead n r).groupId ∧
    (applyCreateResponse m r).description = (refreshFromRead n r).description :=
  ⟨rfl, rfl, rfl⟩

/-- C9: on a client error each lifecycle operation surfaces exactly one
diagnostic whose detail is the operation-specific message followed by the
underlying error's text, and returns without writing any state. -/
theorem c9_error_paths (plan state : componentResourceModel) (err : String) :
    createOp plan (Except.error err) =
      ([("Error creating component",
         "Could not create component, unexpected error: " ++ err)], none) ∧
    readOp state (Except.error err) =
      ([("Error Reading Instatus Component",
         "Could not read Instatus component ID " ++ state.id.getD "" ++ ": "
           ++ err)], none) ∧
    updateOp plan (Except.error err) =
      ([("Error Updating Instatus Component",
         "Could not update component, unexpected error: " ++ err)], none) ∧
    deleteOp (Except.error err) =
      ([("Error Deleting Instatus Component",
         "Could not delete component, unexpected error: " ++ err)], none) :=
  ⟨rfl, rfl, rfl, rfl⟩

end Instatus
